import Mathlib

/-!
Shallow embedding of the tensor core of `include/singa/core/tensor.h`
(Apache SINGA).  Pure inline functions of the header (`SizeOf`, `Product`,
`CheckDataTypeAndLang`, the inline `Tensor` accessors) are translated
directly; fatal `CHECK_*` macros are modelled as the `none` branch of an
`Option`-valued result (a `CHECK` failure aborts the process, so the
function never returns a value).  Null-pointer dereference (reading through
an unbound `blob_`) is likewise modelled as `none`.  `size_t` values are
modelled as `Nat`; the claims settled here do not concern wrap-around.
Code of the repository that is only declared in the header (constructors,
`T()`, the `Div` family, copy semantics, the `DataType` protobuf enum) is
modelled from the spec and marked as such in its doc comment.
-/

namespace Singa

/-- The width table from the source: `const size_t kDataWidth[] =
\x7bsizeof(float), sizeof(float) / 2, sizeof(int), sizeof(char),
sizeof(double)\x7d`, i.e. 4, 2, 4, 1, 8 bytes. -/
def kDataWidth : List Nat := [4, 2, 4, 1, 8]

/-- Modelled from the spec: the `DataType` enumeration comes from the
generated protobuf header `singa/proto/core.pb.h`, which is not part of the
sources at hand; the spec lists the enumerators in the order of the width
table (32-bit float, 16-bit float, 32-bit int, byte/char, 64-bit float).
A C++ enum value is an integer, so `DataType` is modelled as `Nat` with
named constants; `kNumDataType` is the number of enumerators, pinned by the
source's `static_assert` to the length of `kDataWidth`. -/
def kFloat32 : Nat := 0

/-- Modelled from the spec: 16-bit float enumerator of `DataType`. -/
def kFloat16 : Nat := 1

/-- Modelled from the spec: 32-bit int enumerator of `DataType`. -/
def kInt : Nat := 2

/-- Modelled from the spec: byte/char enumerator of `DataType`. -/
def kChar : Nat := 3

/-- Modelled from the spec: 64-bit float enumerator of `DataType`. -/
def kDouble : Nat := 4

/-- Modelled from the spec: the enumerator count of `DataType`. -/
def kNumDataType : Nat := 5

/-- `SizeOf(DataType t)`: `CHECK_GT(kNumDataType, t); return kDataWidth[t];`.
The fatal check is the `none` branch; in the `some` branch the array read
`kDataWidth[t]` is in bounds. -/
def SizeOf (t : Nat) : Option Nat :=
  if t < kNumDataType then some (kDataWidth.getD t 0) else none

/-- `Shape` is `vector<size_t>`. -/
abbrev Shape := List Nat

/-- The index set touched by the loop of `Product`:
`for (unsigned int i = start; i < len; i++)` after the `len == 0` default
has been resolved to `shape.size()`, i.e. the interval `[start, len)`. -/
def productReadIndices (shape : Shape) (start : Nat) (len : Nat) : List Nat :=
  let l := if len = 0 then shape.length else len
  List.range' start (l - start)

/-- `Product(shape, start = 0, len = 0)` from the source:
`if (len == 0) len = shape.size(); CHECK_LE(len, shape.size());
size_t v = 1; for (unsigned int i = start; i < len; i++) v *= shape[i];
return v;`.  `start` is an `int` in the source; it is modelled for its
non-negative values.  The fatal `CHECK_LE` is the `none` branch. -/
def Product (shape : Shape) (start : Nat := 0) (len : Nat := 0) : Option Nat :=
  let l := if len = 0 then shape.length else len
  if l ≤ shape.length then
    some ((List.range' start (l - start)).foldl (fun v i => v * shape.getD i 0) 1)
  else
    none

/-- A `Device` (declared in `singa/core/device.h`, outside the sources at
hand): all that this file needs is its backend tag `lang()`, modelled as a
`Nat`.  Per the spec a device outlives every tensor referencing it, so the
`device_` field below is modelled as non-null. -/
structure Device where
  lang : Nat
deriving Repr, DecidableEq

/-- A `Blob` (storage block, declared in `singa/core/common.h`, outside the
sources at hand): a reference-shared buffer with a byte size.  `id`
models the identity of the shared handle (which raw block the pointer
designates); `size` is `Blob::size()`. -/
structure Blob where
  id : Nat
  size : Nat
deriving Repr, DecidableEq

/-- The `Tensor` class: the protected fields of the source with their
default member initializers (`transpose_ = false`, `data_type_ = kFloat32`,
`blob_ = nullptr`, `shape_ = \x7b\x7d`).  The nullable `Blob *blob_` is an
`Option Blob`. -/
structure Tensor where
  transpose_ : Bool := false
  data_type_ : Nat := kFloat32
  device_ : Device
  blob_ : Option Blob := none
  shape_ : Shape := []
deriving Repr, DecidableEq

namespace Tensor

/-- `const DataType data_type() const` -/
def data_type (t : Tensor) : Nat := t.data_type_

/-- `Device *device() const` -/
def device (t : Tensor) : Device := t.device_

/-- `const Shape &shape() const` -/
def shape (t : Tensor) : Shape := t.shape_

/-- `size_t nDim() const` -/
def nDim (t : Tensor) : Nat := t.shape_.length

/-- `bool transpose() const` -/
def transpose (t : Tensor) : Bool := t.transpose_

/-- `const size_t shape(const size_t idx) const`:
`CHECK_LT(idx, shape_.size()); return shape_.at(idx);`.  The fatal check is
the `none` branch; past it `shape_.at(idx)` is an in-bounds read. -/
def shape_idx (t : Tensor) (idx : Nat) : Option Nat :=
  if idx < t.shape_.length then some (t.shape_.getD idx 0) else none

/-- `size_t MemSize() const { return blob_->size(); }`: dereferences
`blob_` unconditionally; a null `blob_` is the `none` branch. -/
def MemSize (t : Tensor) : Option Nat := t.blob_.map Blob.size

/-- `size_t Size() const`: `CHECK_EQ(blob_->size() % SizeOf(data_type_), 0u);
return blob_->size() / SizeOf(data_type_);`.  Dereferencing a null `blob_`,
a fatal check inside `SizeOf`, and the fatal divisibility check are all
`none` branches. -/
def Size (t : Tensor) : Option Nat := do
  let b ← t.blob_
  let w ← SizeOf t.data_type_
  if b.size % w = 0 then some (b.size / w) else none

end Tensor

/-- `void CheckDataTypeAndLang(const Tensor &in1, const Tensor &in2)`:
`CHECK_EQ(in1.data_type(), in2.data_type());
CHECK_EQ(in1.device()->lang(), in2.device()->lang());`.
`true` models a normal return, `false` a fatal check failure. -/
def CheckDataTypeAndLang (in1 in2 : Tensor) : Bool :=
  decide (in1.data_type = in2.data_type) &&
    decide (in1.device.lang = in2.device.lang)

/-- Modelled from the spec: the `Tensor` constructors taking a shape, a
device and a data type are only declared in the header; their bodies
(tensor.cc) are not among the sources at hand.  Per the spec, construction
stores the metadata eagerly and binds no storage: the storage handle is
null until the first access that requires real memory. -/
def tensorOfShape (shape : Shape) (dev : Device) (dtype : Nat := kFloat32) :
    Tensor :=
  { transpose_ := false, data_type_ := dtype, device_ := dev, blob_ := none,
    shape_ := shape }

/-- Modelled from the spec: `Tensor Tensor::T() const` is only declared in
the header ("Matrix transpose.  Valid only if shape.size() == 2.  No data
copy, just set the transpose_ filed of the returned tensor."); its body
(tensor.cc) is not among the sources at hand.  Per the spec it fails fast
(fatal check, the `none` branch) unless the rank is 2, and otherwise
returns a new tensor sharing the same storage with the transpose flag
flipped and the two dimensions swapped in the reported shape. -/
def Tensor.T (t : Tensor) : Option Tensor :=
  if t.shape_.length = 2 then
    some { t with transpose_ := !t.transpose_,
                  shape_ := [t.shape_.getD 1 0, t.shape_.getD 0 0] }
  else none

/-- Modelled from the spec: the copy constructor `Tensor(const Tensor &)`
and copy assignment `operator=(const Tensor &)` ("Copy Tensor to share the
internal data.  No deep copy." / "Copy the meta info with data blob
shared.") are implemented outside the sources at hand.  Per the spec they
copy the metadata field by field, sharing the storage handle and the
device pointer; no new block is allocated and no bytes are copied. -/
def copyTensor (a : Tensor) : Tensor :=
  { transpose_ := a.transpose_, data_type_ := a.data_type_,
    device_ := a.device_, blob_ := a.blob_, shape_ := a.shape_ }

/-- The bytes held by every storage block, addressed by blob identity: the
shared mutable store through which tensors holding the same blob handle
read and write. -/
abbrev Store := Nat → List Nat

/-- Writing bytes through a blob handle mutates the block it designates. -/
def writeBlob (st : Store) (b : Blob) (bytes : List Nat) : Store :=
  fun i => if i = b.id then bytes else st i

/-- Reading through a blob handle yields the bytes of the designated
block. -/
def readBlob (st : Store) (b : Blob) : List Nat := st b.id

/-- Modelled from the spec: `Div(x, in)` / `Div(x, in, out)` ("For each
element e of Tensor 'in', compute x/e") are implemented outside the
sources at hand.  Element values are modelled as rationals — the claim
concerns which quotient each form computes, not floating-point rounding —
and the tensor's element sequence as a list. -/
def divScalarByTensor (x : ℚ) (vals : List ℚ) : List ℚ :=
  vals.map (fun e => x / e)

/-- Modelled from the spec: `operator/(in, x)` and `Div(in, x, out)` carry
the same contract in the header ("For each element e of Tensor 'in',
compute e / x"); their bodies are outside the sources at hand.  Both are
modelled by this one element-wise map. -/
def divTensorByScalar (vals : List ℚ) (x : ℚ) : List ℚ :=
  vals.map (fun e => e / x)

/-- The multiplication loop of `Product` over `[start, start+k)` equals the
product of the corresponding sub-list of the shape. -/
theorem foldl_mul_range' (s : Shape) :
    ∀ (k start acc : Nat), start + k ≤ s.length →
      (List.range' start k).foldl (fun v i => v * s.getD i 0) acc =
        acc * ((s.drop start).take k).prod := by
  intro k
  induction k with
  | zero => intro start acc _; simp
  | succ k ih =>
    intro start acc h
    have hs : start < s.length := by omega
    rw [List.range'_succ, List.foldl_cons, ih (start + 1) _ (by omega)]
    rw [List.drop_eq_getElem_cons hs, List.take_succ_cons, List.prod_cons]
    rw [List.getD_eq_getElem s 0 hs]
    ring

/-- C1 counterexample: at shape `[2,3,5]`, `start = 1`, `len = 2`, the claim
says `Product` returns the product of the `len = 2` elements beginning at
position 1, i.e. `3 * 5 = 15`; the code returns `3` (it multiplies the
elements at indices in `[start, len) = [1, 2)`). -/
theorem Product_len_count_cex :
    Product [2, 3, 5] 1 2 ≠ some (((([2, 3, 5] : Shape).drop 1).take 2).prod) ∧
      Product [2, 3, 5] 1 2 = some 3 := by
  constructor <;> decide

/-- C1 (amended): for every shape `s`, start and `len` with
`len ≤ s.size()`, `Product(s, start, len)` returns the product of the
elements of `s` at positions `start ≤ i <` the effective end bound (`len`,
or `s.size()` when `len = 0`) — `len` acts as an exclusive end index, not
an element count — and a call with `len > s.size()` fails the fatal
check. -/
theorem Product_range_spec (shape : Shape) (start len : Nat) :
    (len ≤ shape.length →
      Product shape start len =
        some (((shape.drop start).take
            ((if len = 0 then shape.length else len) - start)).prod)) ∧
    (shape.length < len → Product shape start len = none) := by
  constructor
  · intro hle
    have hl : (if len = 0 then shape.length else len) ≤ shape.length := by
      split <;> omega
    simp only [Product, if_pos hl]
    rcases le_or_lt start (if len = 0 then shape.length else len) with h | h
    · rw [foldl_mul_range' shape _ start 1 (by omega), one_mul]
    · have h0 : (if len = 0 then shape.length else len) - start = 0 := by omega
      simp [h0]
  · intro hlt
    have hne : len ≠ 0 := by omega
    simp only [Product, if_neg hne]
    rw [if_neg (by omega)]

/-- C1 witness: `Product [2,3,5] 1 2` passes the check (`2 ≤ 3`) and
returns the product of the elements at positions in `[1, 2)`, namely 3. -/
theorem Product_range_spec_wit :
    Product [2, 3, 5] 1 2 =
      some (((([2, 3, 5] : Shape).drop 1).take ((if 2 = 0 then 3 else 2) - 1)).prod) :=
  (Product_range_spec [2, 3, 5] 1 2).1 (by decide)

/-- C10: when the fatal check passes, every index touched by the loop of
`Product` is in bounds for the shape (the loop only visits `[start, l)`
with `l ≤ s.size()`); whenever the iterated range is empty — in particular
for the empty shape with default arguments, or whenever `start` is at or
past the effective end bound, even past `s.size()` itself — `Product`
returns 1 with no out-of-bounds access. -/
theorem Product_reads_inbounds (shape : Shape) (start len : Nat) :
    (∀ i ∈ productReadIndices shape start len,
        start ≤ i ∧ i < (if len = 0 then shape.length else len)) ∧
    ((if len = 0 then shape.length else len) ≤ shape.length →
      ∀ i ∈ productReadIndices shape start len, i < shape.length) ∧
    ((if len = 0 then shape.length else len) ≤ shape.length →
      productReadIndices shape start len = [] →
      Product shape start len = some 1) ∧
    ((if len = 0 then shape.length else len) ≤ shape.length →
      (if len = 0 then shape.length else len) ≤ start →
      Product shape start len = some 1) ∧
    Product ([] : Shape) = some 1 := by
  refine ⟨?_, ?_, ?_, ?_, by decide⟩
  · intro i hi
    rw [productReadIndices, List.mem_range'_1] at hi
    omega
  · intro hl i hi
    rw [productReadIndices, List.mem_range'_1] at hi
    omega
  · intro hl hemp
    rw [productReadIndices] at hemp
    simp only [Product, if_pos hl, hemp, List.foldl_nil]
  · intro hl hs
    have h0 : (if len = 0 then shape.length else len) - start = 0 := by omega
    simp [Product, if_pos hl, h0]

/-- C10 witness: for shape `[2,3]` with `start = 5` (past the end of the
shape) and default `len = 0`, the check passes, the iterated range is
empty, and `Product` returns 1. -/
theorem Product_reads_inbounds_wit : Product [2, 3] 5 0 = some 1 :=
  (Product_reads_inbounds [2, 3] 5 0).2.2.2.1 (by decide) (by decide)

/-- C2 counterexample: on a freshly constructed tensor with the non-empty
shape `[2, 3]` no storage is bound, so `MemSize()` — which unconditionally
dereferences `blob_` — hits a null pointer (the `none` branch) instead of
reporting a logically-zero size; it is not total on such a tensor. -/
theorem MemSize_fresh_cex :
    (tensorOfShape [2, 3] ⟨0⟩).MemSize = none ∧
      (tensorOfShape [2, 3] ⟨0⟩).MemSize ≠ some 0 := by
  constructor <;> decide

/-- C2 (amended): a freshly constructed Tensor with a non-empty shape binds
no device memory (`blob_` is null), and the unbound state is observable as
the null storage handle; but `MemSize()` is not total on such a tensor —
it dereferences the null `blob_` and fails rather than reporting zero. -/
theorem fresh_tensor_unbound (shape : Shape) (dev : Device) (dtype : Nat) :
    (tensorOfShape shape dev dtype).blob_ = none ∧
      (tensorOfShape shape dev dtype).MemSize = none := by
  exact ⟨rfl, rfl⟩

/-- C3: on a tensor whose storage is bound (and whose data type is in
range so that `SizeOf` returns a width `w`), `MemSize()` is the blob's
byte size; `Size()` returns normally only when that byte size is an exact
multiple of `w` (otherwise the fatal divisibility check fires), and then
it returns exactly `MemSize() / SizeOf(data_type())`. -/
theorem Size_eq_MemSize_div (t : Tensor) (b : Blob) (w : Nat)
    (hb : t.blob_ = some b) (hw : SizeOf t.data_type_ = some w) :
    t.MemSize = some b.size ∧
    (∀ n, t.Size = some n → b.size % w = 0 ∧ n = b.size / w) ∧
    (b.size % w = 0 → t.Size = some (b.size / w)) ∧
    (b.size % w ≠ 0 → t.Size = none) := by
  refine ⟨by simp [Tensor.MemSize, hb], ?_, ?_, ?_⟩
  · intro n hn
    simp only [Tensor.Size, hb, hw, Option.bind_eq_bind, Option.some_bind] at hn
    by_cases hmod : b.size % w = 0
    · rw [if_pos hmod] at hn
      exact ⟨hmod, (Option.some_inj.mp hn).symm⟩
    · rw [if_neg hmod] at hn
      exact absurd hn (by simp)
  · intro hmod
    simp [Tensor.Size, hb, hw, hmod]
  · intro hmod
    simp [Tensor.Size, hb, hw, hmod]

/-- C3 witness: a float32 tensor bound to an 8-byte blob has
`MemSize() = 8` and `Size() = 8 / 4 = 2`; on a 9-byte blob the
divisibility check fires. -/
theorem Size_eq_MemSize_div_wit :
    (⟨false, 0, ⟨0⟩, some ⟨0, 8⟩, []⟩ : Tensor).MemSize = some 8 ∧
      (⟨false, 0, ⟨0⟩, some ⟨0, 8⟩, []⟩ : Tensor).Size = some 2 ∧
      (⟨false, 0, ⟨0⟩, some ⟨0, 9⟩, []⟩ : Tensor).Size = none := by
  refine ⟨(Size_eq_MemSize_div ⟨false, 0, ⟨0⟩, some ⟨0, 8⟩, []⟩ ⟨0, 8⟩ 4 rfl rfl).1, ?_, ?_⟩
  · have := (Size_eq_MemSize_div ⟨false, 0, ⟨0⟩, some ⟨0, 8⟩, []⟩ ⟨0, 8⟩ 4 rfl rfl).2.2.1
      (by decide)
    simpa using this
  · exact (Size_eq_MemSize_div ⟨false, 0, ⟨0⟩, some ⟨0, 9⟩, []⟩ ⟨0, 9⟩ 4 rfl rfl).2.2.2
      (by decide)

/-- C4: `SizeOf` returns the fixed byte width recorded in `kDataWidth`
(4 bytes for 32-bit float, 2 for 16-bit float, 4 for 32-bit int, 1 for
byte/char, 8 for 64-bit float), and every out-of-range value
`t ≥ kNumDataType` fails the fatal check instead of reading past the
table. -/
theorem SizeOf_width_table :
    SizeOf kFloat32 = some 4 ∧ SizeOf kFloat16 = some 2 ∧
      SizeOf kInt = some 4 ∧ SizeOf kChar = some 1 ∧
      SizeOf kDouble = some 8 ∧
      ∀ t, kNumDataType ≤ t → SizeOf t = none := by
  refine ⟨rfl, rfl, rfl, rfl, rfl, ?_⟩
  intro t ht
  rw [SizeOf, if_neg (by rw [kNumDataType] at *; omega)]

/-- C4 witness: the out-of-range value 7 (`≥ kNumDataType = 5`) fails the
fatal check of `SizeOf`. -/
theorem SizeOf_width_table_wit : SizeOf 7 = none :=
  SizeOf_width_table.2.2.2.2.2 7 (by decide)

/-- C5: `CheckDataTypeAndLang(in1, in2)` returns normally (`true`) iff
`in1` and `in2` have identical `data_type` and their devices have an
identical backend tag (`lang`); otherwise one of the two unconditional
checks is fatal (`false`) — there is no recoverable-error outcome. -/
theorem CheckDataTypeAndLang_iff (in1 in2 : Tensor) :
    CheckDataTypeAndLang in1 in2 = true ↔
      in1.data_type = in2.data_type ∧ in1.device.lang = in2.device.lang := by
  simp [CheckDataTypeAndLang]

/-- C6: the single-dimension accessor `shape(idx)` fails the fatal
`CHECK_LT(idx, shape_.size())` when `idx ≥ nDim()`, and otherwise returns
the `idx`-th entry of the shape. -/
theorem shape_idx_spec (t : Tensor) (idx : Nat) :
    (t.nDim ≤ idx → t.shape_idx idx = none) ∧
    (∀ h : idx < t.nDim, t.shape_idx idx = some (t.shape_.get ⟨idx, h⟩)) := by
  constructor
  · intro h
    rw [Tensor.shape_idx, if_neg (by rw [Tensor.nDim] at h; omega)]
  · intro h
    rw [Tensor.nDim] at h
    rw [Tensor.shape_idx, if_pos h, List.getD_eq_getElem t.shape_ 0 h]
    rfl

/-- C6 witness: on a tensor of shape `[7, 5]`, `shape(1)` returns 5 and
`shape(5)` fails the fatal check. -/
theorem shape_idx_spec_wit :
    (⟨false, 0, ⟨0⟩, none, [7, 5]⟩ : Tensor).shape_idx 1 = some 5 ∧
      (⟨false, 0, ⟨0⟩, none, [7, 5]⟩ : Tensor).shape_idx 5 = none := by
  constructor
  · have := (shape_idx_spec ⟨false, 0, ⟨0⟩, none, [7, 5]⟩ 1).2 (by decide)
    simpa using this
  · exact (shape_idx_spec ⟨false, 0, ⟨0⟩, none, [7, 5]⟩ 5).1 (by decide)

/-- C7: for a 2-D tensor of shape `(r, c)`, `T()` returns a new tensor
that shares the storage handle (the record update keeps `blob_`) with the
transpose flag flipped and reported shape `(c, r)`, so `t.T().T()` equals
`t` (hence is element-equal to it, the storage being shared); on a tensor
of rank ≠ 2 the fatal contract-violation check fires. -/
theorem T_transpose_spec (t : Tensor) :
    (∀ r c, t.shape_ = [r, c] →
      t.T = some { t with transpose_ := !t.transpose_, shape_ := [c, r] } ∧
        t.T.bind Tensor.T = some t) ∧
    (t.shape_.length ≠ 2 → t.T = none) := by
  obtain ⟨tr, dt, dev, bl, sh⟩ := t
  constructor
  · rintro r c rfl
    exact ⟨rfl, by simp [Tensor.T]⟩
  · intro h
    rw [Tensor.T, if_neg h]

/-- C7 witness: a tensor of shape `[2, 3]` transposes to one of shape
`[3, 2]` with the same blob and flipped flag, and transposing twice gives
back the original; a rank-3 tensor fails the fatal check. -/
theorem T_transpose_spec_wit :
    (⟨false, 0, ⟨0⟩, some ⟨3, 24⟩, [2, 3]⟩ : Tensor).T =
        some ⟨true, 0, ⟨0⟩, some ⟨3, 24⟩, [3, 2]⟩ ∧
      ((⟨false, 0, ⟨0⟩, some ⟨3, 24⟩, [2, 3]⟩ : Tensor).T).bind Tensor.T =
        some ⟨false, 0, ⟨0⟩, some ⟨3, 24⟩, [2, 3]⟩ ∧
      (⟨false, 0, ⟨0⟩, none, [2, 3, 4]⟩ : Tensor).T = none :=
  ⟨((T_transpose_spec ⟨false, 0, ⟨0⟩, some ⟨3, 24⟩, [2, 3]⟩).1 2 3 rfl).1,
   ((T_transpose_spec ⟨false, 0, ⟨0⟩, some ⟨3, 24⟩, [2, 3]⟩).1 2 3 rfl).2,
   (T_transpose_spec ⟨false, 0, ⟨0⟩, none, [2, 3, 4]⟩).2 (by decide)⟩

/-- C8: `Div(x, in)` computes `x / e` per element while `operator/(in, x)`
and `Div(in, x)` compute `e / x` per element; both preserve the element
count, and the two scalar-division forms are distinct operations, not
aliases (they differ already on the one-element tensor `[4]` with
`x = 2`). -/
theorem Div_scalar_forms (x : ℚ) (vals : List ℚ) (i : Nat)
    (hi : i < vals.length) :
    (divScalarByTensor x vals).length = vals.length ∧
    (divTensorByScalar vals x).length = vals.length ∧
    (divScalarByTensor x vals).getD i 0 = x / vals.getD i 0 ∧
    (divTensorByScalar vals x).getD i 0 = vals.getD i 0 / x ∧
    divScalarByTensor 2 [4] ≠ divTensorByScalar [4] 2 := by
  refine ⟨by simp [divScalarByTensor], by simp [divTensorByScalar], ?_, ?_, ?_⟩
  · rw [divScalarByTensor,
      List.getD_eq_getElem _ _ (by simpa using hi), List.getElem_map,
      List.getD_eq_getElem _ _ hi]
  · rw [divTensorByScalar,
      List.getD_eq_getElem _ _ (by simpa using hi), List.getElem_map,
      List.getD_eq_getElem _ _ hi]
  · simp only [divScalarByTensor, divTensorByScalar, List.map_cons, List.map_nil,
      ne_eq, List.cons.injEq, and_true]
    norm_num

/-- C8 witness: on the tensor `[4, 6]` with scalar 2, element 1 of
`Div(2, in)` is `2 / 6` and element 1 of `in / 2` is `6 / 2`. -/
theorem Div_scalar_forms_wit :
    (divScalarByTensor 2 [4, 6]).getD 1 0 = 2 / (([4, 6] : List ℚ).getD 1 0) ∧
      (divTensorByScalar [4, 6] 2).getD 1 0 = (([4, 6] : List ℚ).getD 1 0) / 2 :=
  ⟨(Div_scalar_forms 2 [4, 6] 1 (by decide)).2.2.1,
   (Div_scalar_forms 2 [4, 6] 1 (by decide)).2.2.2.1⟩

/-- C9: a copy `b` of tensor `a` (copy construction / copy assignment)
holds the same storage handle and the same device as `a` — no deep copy —
so bytes written through `b`'s handle are read back through `a`'s handle:
shared mutation is observable through `a`. -/
theorem copy_shares_storage (a : Tensor) (st : Store) (bytes : List Nat)
    (b : Blob) (hb : (copyTensor a).blob_ = some b) :
    (copyTensor a).device = a.device ∧
    (copyTensor a).blob_ = a.blob_ ∧
    a.blob_ = some b ∧
    readBlob (writeBlob st b bytes) b = bytes := by
  exact ⟨rfl, rfl, hb, by simp [readBlob, writeBlob]⟩

/-- C9 witness: copying a tensor bound to blob 7 keeps device 2 and blob 7
shared; writing `[1, 2, 3]` through the copy's handle is read back through
the original's handle. -/
theorem copy_shares_storage_wit :
    (copyTensor ⟨false, 0, ⟨2⟩, some ⟨7, 12⟩, [3]⟩).device =
        (⟨false, 0, ⟨2⟩, some ⟨7, 12⟩, [3]⟩ : Tensor).device ∧
      (copyTensor ⟨false, 0, ⟨2⟩, some ⟨7, 12⟩, [3]⟩).blob_ =
        (⟨false, 0, ⟨2⟩, some ⟨7, 12⟩, [3]⟩ : Tensor).blob_ ∧
      (⟨false, 0, ⟨2⟩, some ⟨7, 12⟩, [3]⟩ : Tensor).blob_ = some ⟨7, 12⟩ ∧
      readBlob (writeBlob (fun _ => []) ⟨7, 12⟩ [1, 2, 3]) ⟨7, 12⟩ = [1, 2, 3] :=
  copy_shares_storage ⟨false, 0, ⟨2⟩, some ⟨7, 12⟩, [3]⟩ (fun _ => []) [1, 2, 3]
    ⟨7, 12⟩ rfl

end Singa
